import Mathlib

/-!
Verification of the CrashLens crash-log simulation pipeline (TiDB-Hackathon).

The first part embeds the TypeScript helpers of the dashboard frontend
(`CrashTable.tsx` and `apiService.ts`).  The second part models the
log-stream-generator pipeline (ScenarioCatalog, LogSynthesizer, ArtifactStore,
CrashRecorder, NotificationDispatcher, SimulationOrchestrator); the script
`simulate_logs.py` itself is not in the source tree, so those definitions are
modelled from the spec and the component README.
-/

namespace CrashLens

/-- Crash scenarios lookup from the backend, as listed in `CrashTable.tsx`. -/
def CRASH_SCENARIOS : List String :=
  ["paystack_timeout", "migration_type_mismatch", "taskq_oversell",
   "verify_payment_timeout", "db_startup_failure", "stripe_signature_error"]

/-- Log formats, as listed in `CrashTable.tsx`. -/
def LOG_FORMATS : List String := ["plain", "json"]

/-- The request object built by `generateRandomSimulationData` in `CrashTable.tsx`. -/
structure SimulationRequest where
  scenario : String
  format : String
  min_logs : Int
  no_jitter : Bool
  users_impacted : Int
  comment : String
deriving DecidableEq

/-- Five successive outputs of `Math.random()`, each a number in `[0, 1)`,
modelled as rationals. -/
structure RandomSource where
  r1 : ℚ
  r2 : ℚ
  r3 : ℚ
  r4 : ℚ
  r5 : ℚ

/-- JavaScript `Math.floor` on a rational input. -/
def mathFloor (q : ℚ) : Int := Int.floor q

/-- Embedding of `generateRandomSimulationData` from `CrashTable.tsx`:
each `Math.random()` call is one field of `rnd`, array indexing is `List.getD`
(out-of-range JavaScript indexing would give `undefined`; the default is never
used for in-range random values). -/
def generateRandomSimulationData (rnd : RandomSource) : SimulationRequest :=
  let randomScenario :=
    CRASH_SCENARIOS.getD (mathFloor (rnd.r1 * (CRASH_SCENARIOS.length : ℚ))).toNat ""
  let randomFormat :=
    LOG_FORMATS.getD (mathFloor (rnd.r2 * (LOG_FORMATS.length : ℚ))).toNat ""
  let randomMinLogs := mathFloor (rnd.r3 * 200) + 50
  let randomUsersImpacted := mathFloor (rnd.r4 * 5000) + 100
  let randomNoJitter := decide (rnd.r5 < 3 / 10)
  { scenario := randomScenario
    format := randomFormat
    min_logs := randomMinLogs
    no_jitter := randomNoJitter
    users_impacted := randomUsersImpacted
    comment := "Simulated crash for testing - " ++ randomScenario }

/-- Outcome of `withRetry` in `apiService.ts`: a returned value, a rethrown
operation error, or the trailing `Max retries exceeded` throw after the loop. -/
inductive RetryOutcome (ε α : Type) where
  | ok : α → RetryOutcome ε α
  | opError : ε → RetryOutcome ε α
  | maxRetriesExceeded : RetryOutcome ε α
deriving DecidableEq

/-- Observable behaviour of one `withRetry` call: the final outcome, the number
of times the operation was invoked, and the list of back-off waits performed. -/
structure RetryResult (ε α : Type) where
  outcome : RetryOutcome ε α
  calls : Nat
  waits : List Nat
deriving DecidableEq

/-- Loop body of `withRetry` from `apiService.ts`.  `op j` is the result of the
j-th invocation of the operation (0-indexed), `i` the current loop index and
`rem` the remaining iterations (`retries - i`); `i = retries - 1` corresponds to
`rem = 1`.  A failed non-final attempt waits `delay * 2 ^ i` before retrying. -/
def withRetryGo (op : Nat → Except ε α) (delay : Nat) : Nat → Nat → RetryResult ε α
  | _, 0 => ⟨.maxRetriesExceeded, 0, []⟩
  | i, rem + 1 =>
    match op i with
    | .ok a => ⟨.ok a, 1, []⟩
    | .error e =>
      if rem = 0 then ⟨.opError e, 1, []⟩
      else
        let r := withRetryGo op delay (i + 1) rem
        ⟨r.outcome, r.calls + 1, delay * 2 ^ i :: r.waits⟩

/-- Embedding of `withRetry` from `apiService.ts`; the defaults in the source
are `retries = 3`, `delay = 1000`. -/
def withRetry (op : Nat → Except ε α) (retries : Nat) (delay : Nat) : RetryResult ε α :=
  withRetryGo op delay 0 retries

theorem mathFloor_scaled_bounds (q : ℚ) (n : ℕ) (hn : 0 < n) (h0 : 0 ≤ q) (h1 : q < 1) :
    0 ≤ mathFloor (q * (n : ℚ)) ∧ mathFloor (q * (n : ℚ)) < (n : ℤ) := by
  constructor
  · exact Int.floor_nonneg.mpr (by positivity)
  · rw [mathFloor, Int.floor_lt]
    push_cast
    have hq : (0 : ℚ) < n := by exact_mod_cast hn
    nlinarith

/-- C10: for every outcome of the random source (each `Math.random()` output in
`[0, 1)`), `generateRandomSimulationData` returns a request whose `scenario` is
one of the six `CRASH_SCENARIOS`, whose `format` is `plain` or `json`, whose
`min_logs` is an integer in `[50, 249]`, whose `users_impacted` is an integer in
`[100, 5099]`, and whose `no_jitter` is a boolean. -/
theorem generateRandomSimulationData_ranges (rnd : RandomSource)
    (h1 : 0 ≤ rnd.r1 ∧ rnd.r1 < 1) (h2 : 0 ≤ rnd.r2 ∧ rnd.r2 < 1)
    (h3 : 0 ≤ rnd.r3 ∧ rnd.r3 < 1) (h4 : 0 ≤ rnd.r4 ∧ rnd.r4 < 1) :
    (generateRandomSimulationData rnd).scenario ∈ CRASH_SCENARIOS ∧
    ((generateRandomSimulationData rnd).format = "plain" ∨
      (generateRandomSimulationData rnd).format = "json") ∧
    50 ≤ (generateRandomSimulationData rnd).min_logs ∧
    (generateRandomSimulationData rnd).min_logs ≤ 249 ∧
    100 ≤ (generateRandomSimulationData rnd).users_impacted ∧
    (generateRandomSimulationData rnd).users_impacted ≤ 5099 ∧
    ((generateRandomSimulationData rnd).no_jitter = true ∨
      (generateRandomSimulationData rnd).no_jitter = false) := by
  have hs := mathFloor_scaled_bounds rnd.r1 CRASH_SCENARIOS.length
    (by norm_num [CRASH_SCENARIOS]) h1.1 h1.2
  have hfmt := mathFloor_scaled_bounds rnd.r2 LOG_FORMATS.length
    (by norm_num [LOG_FORMATS]) h2.1 h2.2
  have hml := mathFloor_scaled_bounds rnd.r3 200 (by norm_num) h3.1 h3.2
  have hui := mathFloor_scaled_bounds rnd.r4 5000 (by norm_num) h4.1 h4.2
  push_cast at hml hui
  refine ⟨?_, ?_, ?_, ?_, ?_, ?_, ?_⟩
  · have hlt : (mathFloor (rnd.r1 * (CRASH_SCENARIOS.length : ℚ))).toNat <
        CRASH_SCENARIOS.length := by omega
    simp only [generateRandomSimulationData]
    rw [List.getD_eq_getElem _ _ hlt]
    exact List.getElem_mem hlt
  · have hlt : (mathFloor (rnd.r2 * (LOG_FORMATS.length : ℚ))).toNat < LOG_FORMATS.length := by
      omega
    have hlen2 : (LOG_FORMATS.length : ℤ) = 2 := by norm_num [LOG_FORMATS]
    have hcase : (mathFloor (rnd.r2 * (LOG_FORMATS.length : ℚ))).toNat = 0 ∨
        (mathFloor (rnd.r2 * (LOG_FORMATS.length : ℚ))).toNat = 1 := by
      omega
    simp only [generateRandomSimulationData]
    rcases hcase with h | h <;> rw [h] <;> simp [LOG_FORMATS]
  · simp only [generateRandomSimulationData]
    omega
  · simp only [generateRandomSimulationData]
    omega
  · simp only [generateRandomSimulationData]
    omega
  · simp only [generateRandomSimulationData]
    omega
  · exact Bool.eq_false_or_eq_true (generateRandomSimulationData rnd).no_jitter

theorem generateRandomSimulationData_ranges_witness :
    ((0 : ℚ) ≤ (0 : ℚ) ∧ (0 : ℚ) < 1) ∧
    ((generateRandomSimulationData ⟨0, 0, 0, 0, 0⟩).scenario ∈ CRASH_SCENARIOS ∧
      ((generateRandomSimulationData ⟨0, 0, 0, 0, 0⟩).format = "plain" ∨
        (generateRandomSimulationData ⟨0, 0, 0, 0, 0⟩).format = "json") ∧
      50 ≤ (generateRandomSimulationData ⟨0, 0, 0, 0, 0⟩).min_logs ∧
      (generateRandomSimulationData ⟨0, 0, 0, 0, 0⟩).min_logs ≤ 249 ∧
      100 ≤ (generateRandomSimulationData ⟨0, 0, 0, 0, 0⟩).users_impacted ∧
      (generateRandomSimulationData ⟨0, 0, 0, 0, 0⟩).users_impacted ≤ 5099 ∧
      ((generateRandomSimulationData ⟨0, 0, 0, 0, 0⟩).no_jitter = true ∨
        (generateRandomSimulationData ⟨0, 0, 0, 0, 0⟩).no_jitter = false)) :=
  ⟨⟨le_refl 0, zero_lt_one⟩,
    generateRandomSimulationData_ranges ⟨0, 0, 0, 0, 0⟩ ⟨le_refl 0, zero_lt_one⟩
      ⟨le_refl 0, zero_lt_one⟩ ⟨le_refl 0, zero_lt_one⟩ ⟨le_refl 0, zero_lt_one⟩⟩

theorem withRetryGo_calls_le (op : Nat → Except ε α) (delay : Nat) :
    ∀ rem i, (withRetryGo op delay i rem).calls ≤ rem := by
  intro rem
  induction rem with
  | zero => intro i; simp [withRetryGo]
  | succ rem ih =>
    intro i
    cases hop : op i with
    | ok a => simp [withRetryGo, hop]
    | error e =>
      by_cases h : rem = 0
      · simp [withRetryGo, hop, h]
      · have := ih (i + 1)
        simp only [withRetryGo, hop, if_neg h]
        omega

theorem withRetryGo_ne_max (op : Nat → Except ε α) (delay : Nat) :
    ∀ rem i, 1 ≤ rem →
      (withRetryGo op delay i rem).outcome ≠ RetryOutcome.maxRetriesExceeded := by
  intro rem
  induction rem with
  | zero => intro i h; omega
  | succ rem ih =>
    intro i _
    cases hop : op i with
    | ok a => simp [withRetryGo, hop]
    | error e =>
      by_cases h : rem = 0
      · simp [withRetryGo, hop, h]
      · simp only [withRetryGo, hop, if_neg h]
        exact ih (i + 1) (Nat.one_le_iff_ne_zero.mpr h)

theorem range_pow_cons (delay i j : Nat) :
    (List.range (j + 1)).map (fun k => delay * 2 ^ (i + k)) =
      delay * 2 ^ i :: (List.range j).map (fun k => delay * 2 ^ (i + 1 + k)) := by
  have hfun : ((fun k => delay * 2 ^ (i + k)) ∘ Nat.succ) =
      (fun k => delay * 2 ^ (i + 1 + k)) := by
    funext k
    simp only [Function.comp_apply]
    rw [show i + Nat.succ k = i + 1 + k by omega]
  rw [List.range_succ_eq_map, List.map_cons, List.map_map, hfun]
  simp only [Nat.add_zero]

theorem withRetryGo_first_success (op : Nat → Except ε α) (delay : Nat) :
    ∀ j rem i v, j < rem → op (i + j) = .ok v →
      (∀ k, k < j → ∃ e, op (i + k) = .error e) →
      withRetryGo op delay i rem =
        ⟨.ok v, j + 1, (List.range j).map (fun k => delay * 2 ^ (i + k))⟩ := by
  intro j
  induction j with
  | zero =>
    intro rem i v hlt hok _
    obtain ⟨rem, rfl⟩ : ∃ r, rem = r + 1 := ⟨rem - 1, by omega⟩
    rw [Nat.add_zero] at hok
    simp [withRetryGo, hok]
  | succ j ih =>
    intro rem i v hlt hok hfail
    obtain ⟨rem, rfl⟩ : ∃ r, rem = r + 1 := ⟨rem - 1, by omega⟩
    obtain ⟨e, he⟩ := hfail 0 (Nat.succ_pos j)
    rw [Nat.add_zero] at he
    have hrem : rem ≠ 0 := by omega
    have ih2 := ih rem (i + 1) v (by omega)
      (by rw [show i + 1 + j = i + (j + 1) by omega]; exact hok)
      (fun k hk => by
        obtain ⟨e2, he2⟩ := hfail (k + 1) (by omega)
        exact ⟨e2, by rw [show i + 1 + k = i + (k + 1) by omega]; exact he2⟩)
    rw [range_pow_cons delay i j]
    simp only [withRetryGo, he, if_neg hrem, ih2]

theorem withRetryGo_all_fail (op : Nat → Except ε α) (delay : Nat) :
    ∀ rem i e, 1 ≤ rem →
      (∀ k, k < rem → ∃ e2, op (i + k) = .error e2) →
      op (i + (rem - 1)) = .error e →
      withRetryGo op delay i rem =
        ⟨.opError e, rem, (List.range (rem - 1)).map (fun k => delay * 2 ^ (i + k))⟩ := by
  intro rem
  induction rem with
  | zero => intro i e h; omega
  | succ rem ih =>
    intro i e _ hfail hlast
    by_cases h : rem = 0
    · subst h
      rw [show 0 + 1 - 1 = 0 by omega, Nat.add_zero] at hlast
      simp [withRetryGo, hlast]
    · obtain ⟨e0, he0⟩ := hfail 0 (by omega)
      rw [Nat.add_zero] at he0
      have ih2 := ih (i + 1) e (by omega)
        (fun k hk => by
          obtain ⟨e2, he2⟩ := hfail (k + 1) (by omega)
          exact ⟨e2, by rw [show i + 1 + k = i + (k + 1) by omega]; exact he2⟩)
        (by rw [show i + 1 + (rem - 1) = i + (rem + 1 - 1) by omega]; exact hlast)
      simp only [withRetryGo, he0, if_neg h, ih2]
      rw [show rem + 1 - 1 = (rem - 1) + 1 by omega, range_pow_cons delay i (rem - 1)]

/-- C9: for every operation and every `retries = n ≥ 1`, `withRetry` invokes the
operation at most `n` times; it returns the value of the first invocation that
succeeds, having waited `delay * 2 ^ i` after each prior failed attempt `i`; when
all `n` invocations fail it rethrows the error of the `n`-th invocation after
waiting `delay * 2 ^ i` for each failed attempt `i < n - 1`; and the trailing
`Max retries exceeded` throw is unreachable. -/
theorem withRetry_spec (op : Nat → Except ε α) (n delay : Nat) (hn : 1 ≤ n) :
    (withRetry op n delay).calls ≤ n ∧
    (withRetry op n delay).outcome ≠ RetryOutcome.maxRetriesExceeded ∧
    (∀ j v, j < n → op j = .ok v → (∀ k, k < j → ∃ e, op k = .error e) →
      withRetry op n delay =
        ⟨.ok v, j + 1, (List.range j).map (fun k => delay * 2 ^ k)⟩) ∧
    (∀ e, (∀ k, k < n → ∃ e2, op k = .error e2) → op (n - 1) = .error e →
      withRetry op n delay =
        ⟨.opError e, n, (List.range (n - 1)).map (fun k => delay * 2 ^ k)⟩) := by
  refine ⟨withRetryGo_calls_le op delay n 0, withRetryGo_ne_max op delay n 0 hn, ?_, ?_⟩
  · intro j v hj hok hfail
    have h := withRetryGo_first_success op delay j n 0 v hj (by simpa using hok)
      (fun k hk => by simpa using hfail k hk)
    simpa [withRetry] using h
  · intro e hfail hlast
    have h := withRetryGo_all_fail op delay n 0 e hn (fun k hk => by simpa using hfail k hk)
      (by simpa using hlast)
    simpa [withRetry] using h

/-- Concrete operation for the `withRetry` witness: fails once, then succeeds. -/
def retryOpW : Nat → Except String Nat :=
  fun i => if i == 0 then Except.error "boom" else Except.ok 5

theorem withRetry_spec_witness :
    1 ≤ 2 ∧
    ((withRetry retryOpW 2 1000).calls ≤ 2 ∧
      (withRetry retryOpW 2 1000).outcome ≠ RetryOutcome.maxRetriesExceeded ∧
      (∀ j v, j < 2 → retryOpW j = .ok v → (∀ k, k < j → ∃ e, retryOpW k = .error e) →
        withRetry retryOpW 2 1000 =
          ⟨.ok v, j + 1, (List.range j).map (fun k => 1000 * 2 ^ k)⟩) ∧
      (∀ e, (∀ k, k < 2 → ∃ e2, retryOpW k = .error e2) → retryOpW (2 - 1) = .error e →
        withRetry retryOpW 2 1000 =
          ⟨.opError e, 2, (List.range (2 - 1)).map (fun k => 1000 * 2 ^ k)⟩)) :=
  ⟨by decide, withRetry_spec retryOpW 2 1000 (by decide)⟩

/-- Modelled from the spec: severity levels of a scenario (`simulate_logs.py` is
not in the source tree; spec §3, ScenarioDefinition). -/
inductive Severity where
  | critical
  | high
  | medium
  | low
deriving DecidableEq

/-- Modelled from the spec: an immutable scenario definition of the
ScenarioCatalog (spec §3; `simulate_logs.py` is not in the source tree). -/
structure ScenarioDefinition where
  name : String
  title : String
  description : String
  severity : Severity
  component : String
  errorType : String
  logTemplate : List String
  stackTraceTemplate : List String
deriving DecidableEq

/-- Modelled from the spec: the `paystack_timeout` scenario of the component
README (`simulate_logs.py` is not in the source tree; title, templates and
metadata are representative). -/
def paystackTimeout : ScenarioDefinition :=
  { name := "paystack_timeout", title := "Payment gateway timeout",
    description := "Paystack charge request exceeded the read deadline",
    severity := .critical, component := "payment-service", errorType := "ConnectTimeout",
    logTemplate := ["processing charge request", "calling paystack gateway",
                    "awaiting gateway response"],
    stackTraceTemplate := ["Traceback (most recent call last):",
                           "  File payments.py, in charge",
                           "ConnectTimeout: paystack gateway timed out"] }

/-- Modelled from the spec: the `migration_type_mismatch` scenario. -/
def migrationTypeMismatch : ScenarioDefinition :=
  { name := "migration_type_mismatch", title := "Database migration type error",
    description := "Column type mismatch while applying a migration",
    severity := .high, component := "db-migration", errorType := "TypeMismatch",
    logTemplate := ["starting migration batch", "applying column change",
                    "validating schema"],
    stackTraceTemplate := ["Traceback (most recent call last):",
                           "  File migrate.py, in apply",
                           "TypeMismatch: expected INTEGER, found VARCHAR"] }

/-- Modelled from the spec: the `taskq_oversell` scenario. -/
def taskqOversell : ScenarioDefinition :=
  { name := "taskq_oversell", title := "Inventory oversell detection",
    description := "Task queue consumer detected an oversold item",
    severity := .high, component := "inventory-service", errorType := "OversellError",
    logTemplate := ["consuming reservation task", "checking stock level",
                    "committing reservation"],
    stackTraceTemplate := ["Traceback (most recent call last):",
                           "  File taskq.py, in reserve",
                           "OversellError: stock below zero"] }

/-- Modelled from the spec: the `verify_payment_timeout` scenario. -/
def verifyPaymentTimeout : ScenarioDefinition :=
  { name := "verify_payment_timeout", title := "Payment verification timeout",
    description := "Verification callback did not answer in time",
    severity := .critical, component := "payment-service", errorType := "ReadTimeout",
    logTemplate := ["verifying payment reference", "polling verification endpoint",
                    "waiting for verification result"],
    stackTraceTemplate := ["Traceback (most recent call last):",
                           "  File verify.py, in verify_payment",
                           "ReadTimeout: verification endpoint timed out"] }

/-- Modelled from the spec: the `db_startup_failure` scenario. -/
def dbStartupFailure : ScenarioDefinition :=
  { name := "db_startup_failure", title := "Database connection failure",
    description := "Could not open the database pool at startup",
    severity := .critical, component := "api-server", errorType := "ConnectionRefused",
    logTemplate := ["booting api server", "opening database pool",
                    "pinging database"],
    stackTraceTemplate := ["Traceback (most recent call last):",
                           "  File startup.py, in init_db",
                           "ConnectionRefused: could not connect to database"] }

/-- Modelled from the spec: the `stripe_signature_error` scenario. -/
def stripeSignatureError : ScenarioDefinition :=
  { name := "stripe_signature_error", title := "Stripe signature verification error",
    description := "Webhook payload signature did not match",
    severity := .medium, component := "webhook-handler",
    errorType := "SignatureVerificationError",
    logTemplate := ["receiving stripe webhook", "reading event payload",
                    "verifying payload signature"],
    stackTraceTemplate := ["Traceback (most recent call last):",
                           "  File webhook.py, in handle_event",
                           "SignatureVerificationError: signature mismatch"] }

/-- Modelled from the spec: the static scenario registry with the six scenario
names of the component README (`simulate_logs.py` is not in the source tree). -/
def scenarioCatalog : List ScenarioDefinition :=
  [paystackTimeout, migrationTypeMismatch, taskqOversell,
   verifyPaymentTimeout, dbStartupFailure, stripeSignatureError]

/-- Modelled from the spec: pipeline error taxonomy (spec §7;
`simulate_logs.py` is not in the source tree). -/
inductive PipelineError where
  | unknownScenario : String → PipelineError
  | recordingError : PipelineError
deriving DecidableEq

/-- Modelled from the spec: `ScenarioCatalog.resolve` (spec §4.1; fails with
`UnknownScenario` when the name is absent; `simulate_logs.py` is not in the
source tree). -/
def resolve (name : String) : Except PipelineError ScenarioDefinition :=
  match scenarioCatalog.find? (fun s => s.name == name) with
  | some s => Except.ok s
  | none => Except.error (.unknownScenario name)

/-- Modelled from the spec: one synthesized log line (spec §3, LogEntry). -/
structure LogEntry where
  timestamp : Nat
  level : String
  service : String
  message : String
deriving DecidableEq

/-- Modelled from the spec: the output encodings of the LogSynthesizer. -/
inductive LogFormat where
  | plain
  | json
deriving DecidableEq

/-- Modelled from the spec: LogSynthesizer configuration (spec §4.2). -/
structure SynthConfig where
  minLogs : Nat
  format : LogFormat
  jitter : Bool

/-- Fixed inter-line timestamp step when jitter is disabled. -/
def fixedStep : Nat := 100

/-- Bound of the jittered inter-line delta distribution. -/
def jitterBound : Nat := 250

/-- Modelled from the spec: the inter-line timestamp delta; with jitter the
delta is drawn from a bounded distribution (`rnd` is the injected seedable
generator), without jitter it is a fixed step (spec §4.2 and §9). -/
def stepDelta (cfg : SynthConfig) (rnd : Nat → Nat) (i : Nat) : Nat :=
  if cfg.jitter then rnd i % jitterBound else fixedStep

/-- Modelled from the spec: the LogSynthesizer emission loop; emits `rem` more
lines cycling through the scenario log template, starting at line index `i` and
timestamp `t` (spec §4.2). -/
def emitLoop (scn : ScenarioDefinition) (cfg : SynthConfig) (rnd : Nat → Nat) :
    Nat → Nat → Nat → List LogEntry
  | 0, _, _ => []
  | rem + 1, i, t =>
    { timestamp := t, level := "INFO", service := scn.component,
      message := scn.logTemplate.getD (i % scn.logTemplate.length) "" } ::
      emitLoop scn cfg rnd rem (i + 1) (t + stepDelta cfg rnd i)

/-- One line of the accumulated artifact: a synthesized log line or one line of
the terminal stack-trace block. -/
inductive ALine where
  | log : LogEntry → ALine
  | stack : String → ALine
deriving DecidableEq

/-- Modelled from the spec: the artifact of one run, the full synthesized log
followed by the trailing stack trace, in one uniform format (spec §3). -/
structure CrashArtifact where
  lines : List ALine
  format : LogFormat
deriving DecidableEq

/-- Modelled from the spec: `LogSynthesizer.generate` — template lines are
repeated as filler until the `minLogs` floor is met, then the scenario's
stack-trace template is appended as the terminal block (spec §4.2). -/
def generate (scn : ScenarioDefinition) (cfg : SynthConfig) (rnd : Nat → Nat) :
    CrashArtifact :=
  let n := max cfg.minLogs scn.logTemplate.length
  let logs := emitLoop scn cfg rnd n 0 0
  { lines := logs.map ALine.log ++ scn.stackTraceTemplate.map ALine.stack,
    format := cfg.format }

/-- Modelled from the spec: the two persistence backends (spec §3,
ArtifactLocation). -/
inductive Backend where
  | remoteObjectStore
  | localDisk
deriving DecidableEq

/-- Modelled from the spec: the location descriptor returned by
`ArtifactStore.persist`; `publicUrl` is present only for the remote backend
(spec §3). -/
structure ArtifactLocation where
  backend : Backend
  key : String
  publicUrl : Option String
deriving DecidableEq

/-- Modelled from the spec: the object-store key layout
`runId/error/runId.log` (spec §6 and the component README). -/
def suggestedKey (runId : String) : String :=
  runId ++ "/error/" ++ runId ++ ".log"

/-- Modelled from the spec: storage configuration; absence of credentials
short-circuits directly to the local-disk path (spec §4.3, §6). -/
structure StorageConfig where
  credentialsPresent : Bool
  bucketName : String

/-- Modelled from the spec: possible outcomes of one remote upload attempt
(spec §4.3: auth, network, missing bucket, timeout failures). -/
inductive RemoteOutcome where
  | success
  | authError
  | networkError
  | missingBucket
  | timeout
deriving DecidableEq

/-- The local fallback directory, as a path-to-content association list. -/
abbrev LocalDisk := List (String × List ALine)

/-- Modelled from the spec: `ArtifactStore.persist` — the primary path uploads
under the `runId/error/runId.log` key; on any remote failure, or when
credentials are absent, the same bytes are written to the local directory under
the equivalent relative path and a `local-disk` location is reported instead of
failing the run (spec §4.3). -/
def persist (cfg : StorageConfig) (remote : String → RemoteOutcome) (runId : String)
    (artifact : CrashArtifact) (disk : LocalDisk) : ArtifactLocation × LocalDisk :=
  let key := suggestedKey runId
  if cfg.credentialsPresent then
    match remote key with
    | .success =>
      ({ backend := .remoteObjectStore, key := key,
         publicUrl := some ("https://" ++ cfg.bucketName ++ ".s3.amazonaws.com/" ++ key) },
       disk)
    | _ => ({ backend := .localDisk, key := key, publicUrl := none },
            (key, artifact.lines) :: disk)
  else
    ({ backend := .localDisk, key := key, publicUrl := none },
     (key, artifact.lines) :: disk)

/-- Modelled from the spec: the denormalized error-details snapshot stored with
a crash record (spec §3, CrashRecord; README DynamoDB schema). -/
structure ErrorDetails where
  title : String
  description : String
  severity : Severity
  component : String
  errorType : String
deriving DecidableEq

/-- Modelled from the spec: crash record status (spec §3). -/
inductive CrashStatus where
  | active
  | resolved
  | closed
deriving DecidableEq

/-- Modelled from the spec: the crash metadata record keyed by `crashId`
(spec §3 and the README DynamoDB schema). -/
structure CrashRecord where
  crashId : String
  scenario : String
  timestamp : String
  artifactLocation : ArtifactLocation
  errorDetails : ErrorDetails
  usersImpacted : Nat
  status : CrashStatus
  createdAt : String
  updatedAt : String
deriving DecidableEq

/-- The key-value store partitioned by `crashId`, as an association list of
items. -/
abbrev KVStore := List (String × CrashRecord)

/-- Modelled from the spec: a key-value put with partition-key semantics — the
write overwrites any existing item with the same key rather than duplicating it
(spec §4.4, idempotent write). -/
def kvPut (store : KVStore) (k : String) (v : CrashRecord) : KVStore :=
  (k, v) :: store.filter (fun p => p.1 != k)

/-- Modelled from the spec: the error-details snapshot is sourced from the
scenario catalog entry at generation time (spec §3, §4.1). -/
def mkErrorDetails (scn : ScenarioDefinition) : ErrorDetails :=
  { title := scn.title, description := scn.description, severity := scn.severity,
    component := scn.component, errorType := scn.errorType }

/-- Modelled from the spec: `CrashRecorder.record` — builds the crash record
for the supplied `crashId` and performs one put into the key-value store keyed
by `crashId` (spec §4.4). -/
def record (scn : ScenarioDefinition) (loc : ArtifactLocation) (usersImpacted : Nat)
    (crashId : String) (now : String) (store : KVStore) : CrashRecord × KVStore :=
  let r : CrashRecord :=
    { crashId := crashId, scenario := scn.name, timestamp := now, artifactLocation := loc,
      errorDetails := mkErrorDetails scn, usersImpacted := usersImpacted,
      status := .active, createdAt := now, updatedAt := now }
  (r, kvPut store crashId r)

/-- Modelled from the spec: result of `NotificationDispatcher.notify`
(spec §4.5). -/
structure NotificationResult where
  sent : Bool
  reason : Option String
deriving DecidableEq

/-- Modelled from the spec: possible outcomes of reaching the messaging sink
(spec §4.5: missing credentials, network error, rate limit). -/
inductive NotifyOutcome where
  | delivered
  | missingCredentials
  | networkError
  | rateLimit
deriving DecidableEq

/-- Modelled from the spec: `NotificationDispatcher.notify` — a sink failure is
reported as `sent: false` with a reason and never raises (spec §4.5). -/
def notify (r : CrashRecord) (outcome : NotifyOutcome) : NotificationResult :=
  match outcome with
  | .delivered => { sent := true, reason := none }
  | .missingCredentials => { sent := false, reason := some ("missing credentials for " ++ r.crashId) }
  | .networkError => { sent := false, reason := some ("network error for " ++ r.crashId) }
  | .rateLimit => { sent := false, reason := some ("rate limit for " ++ r.crashId) }

/-- Modelled from the spec: the orchestrator state machine states
(spec §4.6). -/
inductive RunState where
  | initialized
  | generating
  | persisting
  | recording
  | notifying
  | completed
  | failed
deriving DecidableEq

/-- Position of a state in the forward order of the state machine; `failed` is
terminal and reachable from any earlier stage. -/
def stateIndex : RunState → Nat
  | .initialized => 0
  | .generating => 1
  | .persisting => 2
  | .recording => 3
  | .notifying => 4
  | .completed => 5
  | .failed => 6

/-- Modelled from the spec: the per-run environment — the freshly minted run
identifier (the crash UUID), the clock, storage configuration, the behaviour of
the remote store, of the key-value write and of the messaging sink, and the
seedable jitter generator (spec §4.6, §5, §9). -/
structure Env where
  runId : String
  now : String
  storage : StorageConfig
  remote : String → RemoteOutcome
  recordWriteOk : Bool
  notifyOutcome : NotifyOutcome
  rnd : Nat → Nat

/-- Modelled from the spec: the run summary returned by the orchestrator,
indicating which of artifact persistence, crash recording and notification
succeeded (spec §4.6, §7). -/
structure SimulationResult where
  finalStatus : RunState
  lineCount : Nat
  artifactPersisted : Bool
  location : Option ArtifactLocation
  crashRecorded : Bool
  crashRecord : Option CrashRecord
  notificationSent : Bool
deriving DecidableEq

/-- Modelled from the spec: `SimulationOrchestrator.run` — resolves the
scenario, generates the artifact, persists it (remote with local fallback),
records the crash metadata, notifies, and returns the visited state trace, the
summary, and the updated stores; a fatal stage failure moves directly to the
terminal `failed` state carrying the partial results accumulated so far
(spec §4.6). -/
def run (env : Env) (scenarioName : String) (cfg : SynthConfig) (usersImpacted : Nat)
    (disk : LocalDisk) (kv : KVStore) :
    (List RunState × SimulationResult) × (LocalDisk × KVStore) :=
  match resolve scenarioName with
  | .error _ =>
    (([.initialized, .failed],
      { finalStatus := .failed, lineCount := 0, artifactPersisted := false,
        location := none, crashRecorded := false, crashRecord := none,
        notificationSent := false }),
     (disk, kv))
  | .ok scn =>
    let artifact := generate scn cfg env.rnd
    let pr := persist env.storage env.remote env.runId artifact disk
    if env.recordWriteOk then
      let rr := record scn pr.1 usersImpacted env.runId env.now kv
      let nres := notify rr.1 env.notifyOutcome
      (([.initialized, .generating, .persisting, .recording, .notifying, .completed],
        { finalStatus := .completed, lineCount := artifact.lines.length,
          artifactPersisted := true, location := some pr.1,
          crashRecorded := true, crashRecord := some rr.1,
          notificationSent := nres.sent }),
       (pr.2, rr.2))
    else
      (([.initialized, .generating, .persisting, .recording, .failed],
        { finalStatus := .failed, lineCount := artifact.lines.length,
          artifactPersisted := true, location := some pr.1,
          crashRecorded := false, crashRecord := none,
          notificationSent := false }),
       (pr.2, kv))

theorem persist_key (cfg : StorageConfig) (remote : String → RemoteOutcome)
    (runId : String) (artifact : CrashArtifact) (disk : LocalDisk) :
    (persist cfg remote runId artifact disk).1.key = suggestedKey runId := by
  by_cases hc : cfg.credentialsPresent
  · cases hr : remote (suggestedKey runId) <;> simp [persist, hc, hr]
  · simp [persist, hc]

/-- C6: the object-store key under which `ArtifactStore.persist` places the
artifact is exactly `runId/error/runId.log`, where the run identifier is the
crash UUID. -/
theorem persist_key_layout (cfg : StorageConfig) (remote : String → RemoteOutcome)
    (runId : String) (artifact : CrashArtifact) (disk : LocalDisk) :
    (persist cfg remote runId artifact disk).1.key =
      runId ++ "/error/" ++ runId ++ ".log" :=
  persist_key cfg remote runId artifact disk

/-- C1: whenever the remote upload attempt fails (auth, network, missing
bucket, timeout) or storage credentials are absent, `ArtifactStore.persist`
returns a `local-disk` location under the equivalent relative path, with the
same artifact bytes written to the local directory under that path; the
function is total, so no error is ever raised. -/
theorem persist_fallback (cfg : StorageConfig) (remote : String → RemoteOutcome)
    (runId : String) (artifact : CrashArtifact) (disk : LocalDisk)
    (h : cfg.credentialsPresent = false ∨ remote (suggestedKey runId) ≠ .success) :
    (persist cfg remote runId artifact disk).1.backend = .localDisk ∧
    (persist cfg remote runId artifact disk).1.key = suggestedKey runId ∧
    (persist cfg remote runId artifact disk).2.lookup (suggestedKey runId) =
      some artifact.lines := by
  rcases h with h | h
  · simp [persist, h]
  · by_cases hc : cfg.credentialsPresent
    · cases hr : remote (suggestedKey runId) <;>
        simp_all [persist, hc, hr]
    · simp [persist, hc]

/-- Concrete storage configuration with absent credentials, for witnesses. -/
def storageNoCredsW : StorageConfig :=
  { credentialsPresent := false, bucketName := "tidb-hackathon-bucket" }

/-- Concrete one-line artifact, for witnesses. -/
def artifactW : CrashArtifact :=
  { lines := [ALine.stack "Traceback (most recent call last):"], format := .plain }

theorem persist_fallback_witness :
    (storageNoCredsW.credentialsPresent = false ∨
      (fun _ => RemoteOutcome.timeout) (suggestedKey "run-1") ≠ RemoteOutcome.success) ∧
    ((persist storageNoCredsW (fun _ => RemoteOutcome.timeout) "run-1" artifactW []).1.backend =
        Backend.localDisk ∧
      (persist storageNoCredsW (fun _ => RemoteOutcome.timeout) "run-1" artifactW []).1.key =
        suggestedKey "run-1" ∧
      (persist storageNoCredsW (fun _ => RemoteOutcome.timeout) "run-1" artifactW []).2.lookup
          (suggestedKey "run-1") =
        some artifactW.lines) :=
  ⟨Or.inl rfl,
    persist_fallback storageNoCredsW (fun _ => RemoteOutcome.timeout) "run-1" artifactW []
      (Or.inl rfl)⟩

/-- C3: invoking `CrashRecorder.record` twice with the same `crashId` leaves
exactly one logical item under that key in the key-value store, and it is the
record written by the second invocation (last write wins). -/
theorem record_last_write_wins (scn1 scn2 : ScenarioDefinition)
    (loc1 loc2 : ArtifactLocation) (u1 u2 : Nat) (k t1 t2 : String) (store : KVStore) :
    ((record scn2 loc2 u2 k t2 (record scn1 loc1 u1 k t1 store).2).2).filter
        (fun p => p.1 == k) =
      [(k, (record scn2 loc2 u2 k t2 (record scn1 loc1 u1 k t1 store).2).1)] := by
  have hff : ∀ (l : KVStore),
      (l.filter (fun p => p.1 != k)).filter (fun p => p.1 == k) = [] := by
    intro l
    induction l with
    | nil => rfl
    | cons a l ih =>
      by_cases ha : (a.1 == k) = true
      · have hb : (a.1 != k) = false := by simp [bne, ha]
        simp [List.filter_cons, hb, ih]
      · have hb : (a.1 != k) = true := by simp [bne, ha]
        simp [List.filter_cons, hb, ha, ih]
  simp only [record, kvPut]
  rw [List.filter_cons]
  simp [hff]

/-- C2: when artifact persistence and crash recording both succeed, any failure
of `NotificationDispatcher.notify` (missing credentials, network error, rate
limit) leaves the final run status `completed` and is reported only as
`sent: false` in the run summary; it never aborts the pipeline. -/
theorem notify_failure_nonfatal (env : Env) (name : String) (cfg : SynthConfig)
    (users : Nat) (disk : LocalDisk) (kv : KVStore) (scn : ScenarioDefinition)
    (hres : resolve name = .ok scn) (hrec : env.recordWriteOk = true)
    (hnot : env.notifyOutcome ≠ .delivered) :
    (run env name cfg users disk kv).1.2.finalStatus = RunState.completed ∧
    (run env name cfg users disk kv).1.2.notificationSent = false := by
  refine ⟨by simp [run, hres, hrec], ?_⟩
  simp only [run, hres, hrec, if_true]
  cases ho : env.notifyOutcome
  · exact absurd ho hnot
  all_goals simp [notify, ho]

/-- Concrete run environment with failing remote storage, a succeeding
key-value write and a failing messaging sink, for witnesses. -/
def envW : Env :=
  { runId := "run-1", now := "2024-01-01T00:00:00Z",
    storage := storageNoCredsW,
    remote := fun _ => RemoteOutcome.timeout, recordWriteOk := true,
    notifyOutcome := NotifyOutcome.networkError, rnd := fun _ => 0 }

/-- Concrete synthesizer configuration, for witnesses. -/
def cfgW : SynthConfig := { minLogs := 5, format := .plain, jitter := false }

theorem notify_failure_nonfatal_witness :
    resolve "paystack_timeout" = .ok paystackTimeout ∧
    envW.recordWriteOk = true ∧
    envW.notifyOutcome ≠ NotifyOutcome.delivered ∧
    ((run envW "paystack_timeout" cfgW 1000 [] []).1.2.finalStatus = RunState.completed ∧
      (run envW "paystack_timeout" cfgW 1000 [] []).1.2.notificationSent = false) :=
  ⟨rfl, rfl, by decide,
    notify_failure_nonfatal envW "paystack_timeout" cfgW 1000 [] [] paystackTimeout
      rfl rfl (by decide)⟩

/-- C8: every execution of `SimulationOrchestrator.run` visits the states in
strictly forward order starting at `initialized`, ends in the terminal state it
reports (`completed`, or `failed` directly after the stage whose fatal failure
aborted the run), and always returns a summary whose persistence and recording
flags are consistent with the partial results carried. -/
theorem run_state_machine (env : Env) (name : String) (cfg : SynthConfig)
    (users : Nat) (disk : LocalDisk) (kv : KVStore) :
    List.Chain' (fun a b => stateIndex a < stateIndex b)
      (run env name cfg users disk kv).1.1 ∧
    (∃ mid, (run env name cfg users disk kv).1.1 =
      RunState.initialized :: mid ++ [(run env name cfg users disk kv).1.2.finalStatus]) ∧
    ((run env name cfg users disk kv).1.2.finalStatus = RunState.completed ∨
      (run env name cfg users disk kv).1.2.finalStatus = RunState.failed) ∧
    (run env name cfg users disk kv).1.2.artifactPersisted =
      (run env name cfg users disk kv).1.2.location.isSome ∧
    (run env name cfg users disk kv).1.2.crashRecorded =
      (run env name cfg users disk kv).1.2.crashRecord.isSome ∧
    ((run env name cfg users disk kv).1.2.crashRecorded = true →
      (run env name cfg users disk kv).1.2.artifactPersisted = true) := by
  cases hres : resolve name with
  | error e =>
    refine ⟨?_, ⟨[], ?_⟩, ?_, ?_, ?_, ?_⟩ <;>
      simp [run, hres, List.chain'_cons, stateIndex]
  | ok scn =>
    by_cases hrec : env.recordWriteOk
    · refine ⟨?_, ⟨[RunState.generating, RunState.persisting, RunState.recording,
        RunState.notifying], ?_⟩, ?_, ?_, ?_, ?_⟩ <;>
        simp [run, hres, hrec, List.chain'_cons, stateIndex]
    · refine ⟨?_, ⟨[RunState.generating, RunState.persisting, RunState.recording], ?_⟩,
        ?_, ?_, ?_, ?_⟩ <;>
        simp [run, hres, hrec, List.chain'_cons, stateIndex]

theorem suggestedKey_inj (u1 u2 : String) (h : suggestedKey u1 = suggestedKey u2) :
    u1 = u2 := by
  have hd := congrArg String.data h
  simp only [suggestedKey, String.data_append, List.append_assoc] at hd
  have hlen := congrArg List.length hd
  simp only [List.length_append] at hlen
  have h7 : ("/error/" : String).data.length = 7 := by decide
  have h4 : (".log" : String).data.length = 4 := by decide
  have hlen2 : u1.data.length = u2.data.length := by omega
  have hdata : u1.data = u2.data := (List.append_inj hd hlen2).1
  cases u1
  cases u2
  exact congrArg String.mk hdata

theorem run_crashRecord_eq (env : Env) (name : String) (cfg : SynthConfig)
    (users : Nat) (disk : LocalDisk) (kv : KVStore) (r : CrashRecord)
    (h : (run env name cfg users disk kv).1.2.crashRecord = some r) :
    r.crashId = env.runId ∧ r.artifactLocation.key = suggestedKey env.runId := by
  cases hres : resolve name with
  | error e => simp [run, hres] at h
  | ok scn =>
    by_cases hrec : env.recordWriteOk
    · simp only [run, hres, hrec, if_true, Option.some.injEq] at h
      subst h
      exact ⟨rfl, persist_key env.storage env.remote env.runId (generate scn cfg env.rnd) disk⟩
    · simp [run, hres, hrec] at h

/-- C7: two distinct simulation runs (distinct freshly minted run identifiers,
even for the same scenario) never produce the same `crashId` and never produce
the same storage key, so the crash records of two runs never reference one
artifact location. -/
theorem runs_distinct_identities (env1 env2 : Env) (name1 name2 : String)
    (cfg1 cfg2 : SynthConfig) (u1 u2 : Nat) (d1 d2 : LocalDisk) (kv1 kv2 : KVStore)
    (hid : env1.runId ≠ env2.runId) :
    ∀ r1 ∈ (run env1 name1 cfg1 u1 d1 kv1).1.2.crashRecord,
      ∀ r2 ∈ (run env2 name2 cfg2 u2 d2 kv2).1.2.crashRecord,
        r1.crashId ≠ r2.crashId ∧ r1.artifactLocation.key ≠ r2.artifactLocation.key := by
  intro r1 h1 r2 h2
  rw [Option.mem_def] at h1 h2
  obtain ⟨hc1, hk1⟩ := run_crashRecord_eq env1 name1 cfg1 u1 d1 kv1 r1 h1
  obtain ⟨hc2, hk2⟩ := run_crashRecord_eq env2 name2 cfg2 u2 d2 kv2 r2 h2
  constructor
  · rw [hc1, hc2]
    exact hid
  · rw [hk1, hk2]
    intro hk
    exact hid (suggestedKey_inj env1.runId env2.runId hk)

/-- A second concrete run environment with a distinct run identifier, for the
distinct-runs witness. -/
def envW2 : Env :=
  { runId := "run-2", now := "2024-01-01T00:05:00Z",
    storage := storageNoCredsW,
    remote := fun _ => RemoteOutcome.timeout, recordWriteOk := true,
    notifyOutcome := NotifyOutcome.delivered, rnd := fun _ => 0 }

theorem runs_distinct_identities_witness :
    envW.runId ≠ envW2.runId ∧
    (∀ r1 ∈ (run envW "paystack_timeout" cfgW 1000 [] []).1.2.crashRecord,
      ∀ r2 ∈ (run envW2 "paystack_timeout" cfgW 500 [] []).1.2.crashRecord,
        r1.crashId ≠ r2.crashId ∧ r1.artifactLocation.key ≠ r2.artifactLocation.key) :=
  ⟨by decide,
    runs_distinct_identities envW envW2 "paystack_timeout" "paystack_timeout" cfgW cfgW
      1000 500 [] [] [] [] (by decide)⟩

theorem length_emitLoop (scn : ScenarioDefinition) (cfg : SynthConfig) (rnd : Nat → Nat) :
    ∀ rem i t, (emitLoop scn cfg rnd rem i t).length = rem := by
  intro rem
  induction rem with
  | zero => intro i t; rfl
  | succ rem ih => intro i t; simp [emitLoop, ih]

/-- C4: for every registered scenario and every configuration,
`LogSynthesizer.generate` produces an artifact consisting of at least `minLogs`
non-stack-trace log lines (template lines repeated as filler), followed by the
scenario's stack-trace template as the single terminal block, which is
nonempty. -/
theorem generate_minLogs_then_stack (scn : ScenarioDefinition) (cfg : SynthConfig)
    (rnd : Nat → Nat) (hreg : scn ∈ scenarioCatalog) :
    ∃ logs : List LogEntry,
      (generate scn cfg rnd).lines =
        logs.map ALine.log ++ scn.stackTraceTemplate.map ALine.stack ∧
      cfg.minLogs ≤ logs.length ∧
      scn.stackTraceTemplate ≠ [] := by
  refine ⟨emitLoop scn cfg rnd (max cfg.minLogs scn.logTemplate.length) 0 0, rfl, ?_, ?_⟩
  · rw [length_emitLoop]
    exact Nat.le_max_left _ _
  · have hall : ∀ s ∈ scenarioCatalog, s.stackTraceTemplate ≠ [] := by decide
    exact hall scn hreg

theorem generate_minLogs_then_stack_witness :
    paystackTimeout ∈ scenarioCatalog ∧
    (∃ logs : List LogEntry,
      (generate paystackTimeout cfgW (fun _ => 0)).lines =
        logs.map ALine.log ++ paystackTimeout.stackTraceTemplate.map ALine.stack ∧
      cfgW.minLogs ≤ logs.length ∧
      paystackTimeout.stackTraceTemplate ≠ []) :=
  ⟨by decide,
    generate_minLogs_then_stack paystackTimeout cfgW (fun _ => 0) (by decide)⟩

/-- The timestamp of an artifact line when it is a synthesized log line; stack
trace lines carry no timestamp. -/
def logTimestamp : ALine → Option Nat
  | .log e => some e.timestamp
  | .stack _ => none

theorem emitLoop_ge (scn : ScenarioDefinition) (cfg : SynthConfig) (rnd : Nat → Nat) :
    ∀ rem i t, ∀ e ∈ emitLoop scn cfg rnd rem i t, t ≤ e.timestamp := by
  intro rem
  induction rem with
  | zero => intro i t e he; simp [emitLoop] at he
  | succ rem ih =>
    intro i t e he
    simp only [emitLoop, List.mem_cons] at he
    rcases he with rfl | he
    · exact le_refl t
    · have := ih (i + 1) (t + stepDelta cfg rnd i) e he
      omega

theorem emitLoop_chain (scn : ScenarioDefinition) (cfg : SynthConfig) (rnd : Nat → Nat) :
    ∀ rem i t,
      List.Chain' (fun a b => a ≤ b)
        ((emitLoop scn cfg rnd rem i t).map LogEntry.timestamp) := by
  intro rem
  induction rem with
  | zero => intro i t; simp [emitLoop]
  | succ rem ih =>
    intro i t
    simp only [emitLoop, List.map_cons]
    refine List.chain'_cons'.mpr ⟨?_, ih (i + 1) (t + stepDelta cfg rnd i)⟩
    intro y hy
    rw [List.head?_map] at hy
    obtain ⟨e, he, rfl⟩ := Option.map_eq_some'.mp hy
    have hmem : e ∈ emitLoop scn cfg rnd rem (i + 1) (t + stepDelta cfg rnd i) :=
      List.mem_of_mem_head? he
    have := emitLoop_ge scn cfg rnd rem (i + 1) (t + stepDelta cfg rnd i) e hmem
    omega

/-- C5: for every run of `LogSynthesizer.generate`, with jitter enabled or
disabled (any generator outcome), the sequence of emitted log-entry timestamps
is monotonically non-decreasing. -/
theorem generate_timestamps_monotone (scn : ScenarioDefinition) (cfg : SynthConfig)
    (rnd : Nat → Nat) :
    List.Chain' (fun a b => a ≤ b)
      ((generate scn cfg rnd).lines.filterMap logTimestamp) := by
  simp only [generate]
  rw [List.filterMap_append]
  have h1 : ((emitLoop scn cfg rnd (max cfg.minLogs scn.logTemplate.length) 0 0).map
      ALine.log).filterMap logTimestamp =
      (emitLoop scn cfg rnd (max cfg.minLogs scn.logTemplate.length) 0 0).map
        LogEntry.timestamp := by
    rw [List.filterMap_map]
    have hfun : (logTimestamp ∘ ALine.log) = (some ∘ LogEntry.timestamp) := by
      funext e
      rfl
    rw [hfun]
    exact congrFun (List.filterMap_eq_map LogEntry.timestamp) _
  have h2 : ((scn.stackTraceTemplate.map ALine.stack).filterMap logTimestamp) = [] := by
    rw [List.filterMap_map]
    have hfun : (logTimestamp ∘ ALine.stack) = (fun _ : String => (none : Option Nat)) := by
      funext e
      rfl
    rw [hfun]
    induction scn.stackTraceTemplate with
    | nil => rfl
    | cons a l ih => simp [List.filterMap_cons, ih]
  rw [h1, h2, List.append_nil]
  exact emitLoop_chain scn cfg rnd (max cfg.minLogs scn.logTemplate.length) 0 0

end CrashLens
